import Mathlib

/-!
Shallow embedding of the story-time repository (TypeScript) in Lean 4.

The embedding covers:
* the JS `Map`-backed stores (`handlers/store-handler.ts`, `managers/agent-session-manager.ts`)
* the action-handler dispatch (`handlers/manager.ts`, `handlers/*.ts`,
  `managers/room-event-handler.ts`)
* the MongoDB-backed user and story stores (`apps/server/src/db/models/User.ts`,
  the story schema, and `apps/server/src/routes/story.ts`)
* the story-synopsis fallback (`agent-logic/agents/storytelling-agent.ts`)
* the voice update (`managers/agent-session-manager.ts`)

JavaScript `Map`s are modelled as insertion-ordered association lists; MongoDB
collections as lists of documents; async handlers as pure state-passing
functions (the `try`/`catch` wrappers never fire in the modelled bodies, which
contain no throwing operations beyond the SDK calls tracked as effects).
-/

namespace StoryTime

/-! ## Insertion-ordered association lists, modelling JS `Map` -/

/-- JS `Map.set`: update the value in place if the key is present, else append. -/
def setKV {α : Type} : List (String × α) → String → α → List (String × α)
  | [], k, v => [(k, v)]
  | (k0, v0) :: rest, k, v =>
    if k0 = k then (k0, v) :: rest else (k0, v0) :: setKV rest k v

/-- JS `Map.get`: first binding for the key, if any. -/
def getKV {α : Type} : List (String × α) → String → Option α
  | [], _ => none
  | (k0, v0) :: rest, k => if k0 = k then some v0 else getKV rest k

/-- JS `Map.delete`: remove the binding for the key (keys are unique in a JS map). -/
def delKV {α : Type} : List (String × α) → String → List (String × α)
  | [], _ => []
  | (k0, v0) :: rest, k => if k0 = k then rest else (k0, v0) :: delKV rest k

/-- JS `Map.has`. -/
def hasKV {α : Type} (m : List (String × α)) (k : String) : Bool :=
  (getKV m k).isSome

/-- JS `Array.from(map.keys())`: keys in insertion order. -/
def keysOf {α : Type} (m : List (String × α)) : List String :=
  m.map Prod.fst

/-! ## Action handlers (`apps/livekit-service/src/handlers`)

`src/handlers/base.ts` defines `ActionRequest`, `ActionResponse`, `HandlerContext`
and `BaseActionHandler`; `manager.ts` defines `HandlerManager`.  Payload values
are `Record<string, unknown>`; the handlers only read the fields `text`, `id`
and `voice_id` and check `typeof v === 'string'`, so payload values are
modelled by a JSON-value type distinguishing strings from everything else. -/

/-- A payload field value: a string, or any other JS value. -/
inductive JVal where
  | str (s : String)
  | other
deriving DecidableEq, Repr

/-- The payload fields read by the registered handlers. -/
structure Payload where
  text : Option JVal := none
  id : Option JVal := none
  voice_id : Option JVal := none
deriving DecidableEq, Repr

/-- `ActionRequest` from `handlers/base.ts`. -/
structure ActionRequest where
  action : String
  payload : Option Payload := none
deriving DecidableEq, Repr

/-- The `data` objects produced by the registered handlers. -/
inductive RespData where
  | sayData (text : String)
  | storeData (id : String) (textLength : Nat) (totalStored : Nat)
  | playData (id : String) (text : String)
  | playErrData (id : String) (availableIds : List String)
deriving DecidableEq, Repr

/-- `ActionResponse` from `handlers/base.ts`. -/
structure ActionResponse where
  success : Bool
  message : Option String := none
  data : Option RespData := none
  error : Option String := none
deriving DecidableEq, Repr

/-- Shared mutable state touched by the registered handlers: the singleton
`TextStorage` of `store-handler.ts` and the transcript of `session.say` calls. -/
structure AgentState where
  storage : List (String × String) := []
  said : List String := []
deriving DecidableEq, Repr

/-- `typeof v === 'string' && v.length > 0` on an optional payload field. -/
def isNonEmptyString : Option JVal → Bool
  | some (.str s) => s.length > 0
  | _ => false

/-- The TS `as string` cast applied after validation has established the field
is a string (`request.payload?.text as string` and the like). -/
def asString : Option JVal → String
  | some (.str s) => s
  | _ => ""

/-- An action handler: name, optional `validate`, and `handle` as a state
transformer (`session.say` and storage writes are the only effects). -/
structure Handler where
  actionName : String
  validateFn : Option (Option Payload → Bool)
  handle : AgentState → ActionRequest → AgentState × ActionResponse

/-- `SayHandler` (`say-handler.ts`). -/
def sayHandler : Handler where
  actionName := "say"
  validateFn := some fun p? =>
    match p? with
    | none => false
    | some p => isNonEmptyString p.text
  handle := fun st req =>
    let text := asString (req.payload.bind (·.text))
    ({ st with said := st.said ++ [text] },
     { success := true, message := some "Text spoken successfully",
       data := some (.sayData text) })

/-- `StoreHandler` (`store-handler.ts`). -/
def storeHandler : Handler where
  actionName := "store"
  validateFn := some fun p? =>
    match p? with
    | none => false
    | some p => isNonEmptyString p.id && isNonEmptyString p.text
  handle := fun st req =>
    let id := asString (req.payload.bind (·.id))
    let text := asString (req.payload.bind (·.text))
    let storage := setKV st.storage id text
    ({ st with storage := storage },
     { success := true, message := some "Text stored successfully",
       data := some (.storeData id text.length storage.length) })

/-- `PlayHandler` (`play-handler.ts`). -/
def playHandler : Handler where
  actionName := "play"
  validateFn := some fun p? =>
    match p? with
    | none => false
    | some p => isNonEmptyString p.id
  handle := fun st req =>
    let id := asString (req.payload.bind (·.id))
    match getKV st.storage id with
    | none =>
      (st, { success := false,
             error := some ("No text found with id: " ++ id),
             data := some (.playErrData id (keysOf st.storage)) })
    | some text =>
      ({ st with said := st.said ++ [text] },
       { success := true, message := some "Text played successfully",
         data := some (.playData id text) })

/-- `HandlerManager.register` (`manager.ts`): `Map.set` keyed by action name. -/
def registerHandler (m : List (String × Handler)) (h : Handler) :
    List (String × Handler) :=
  setKV m h.actionName h

/-- `HandlerManager.registerAll`. -/
def registerAll (m : List (String × Handler)) (hs : List Handler) :
    List (String × Handler) :=
  hs.foldl registerHandler m

/-- The handler map built by `RoomEventHandler.registerHandlers`
(`managers/room-event-handler.ts` line 55): `Say`, `Store`, `Play` — and no
other handler; `ChangeVoiceHandler` is defined in `change-voice-handler.ts`
but never registered. -/
def registeredHandlers : List (String × Handler) :=
  registerAll [] [sayHandler, storeHandler, playHandler]

/-- The unknown-action response of `HandlerManager.processAction`. -/
def unknownActionResponse (m : List (String × Handler)) (a : String) :
    ActionResponse :=
  { success := false,
    error := some ("Unknown action: " ++ a ++ ". Available actions: " ++
      String.intercalate ", " (keysOf m)) }

/-- The invalid-payload response of `HandlerManager.processAction`. -/
def invalidPayloadResponse (a : String) : ActionResponse :=
  { success := false, error := some ("Invalid payload for action: " ++ a) }

/-- `HandlerManager.processAction` (`manager.ts` lines 107-142). -/
def processAction (m : List (String × Handler)) (st : AgentState)
    (req : ActionRequest) : AgentState × ActionResponse :=
  match getKV m req.action with
  | none => (st, unknownActionResponse m req.action)
  | some h =>
    match h.validateFn with
    | some v =>
      if v req.payload then h.handle st req
      else (st, invalidPayloadResponse req.action)
    | none => h.handle st req

/-- `HandlerManager.hasHandler`. -/
def hasHandler (m : List (String × Handler)) (a : String) : Bool :=
  hasKV m a

/-! ## Session registry (`managers/agent-session-manager.ts` lines 312-369)

`SessionRegistry` wraps a JS `Map<string, SessionContext>`.  The context type
is opaque to the registry, so the operations are stated generically. -/

/-- `SessionRegistry.register`: `Map.set` keyed by room name. -/
def registrySet {α : Type} (m : List (String × α)) (roomName : String) (c : α) :
    List (String × α) :=
  setKV m roomName c

/-- `SessionRegistry.unregister`: `Map.delete`. -/
def registryDel {α : Type} (m : List (String × α)) (roomName : String) :
    List (String × α) :=
  delKV m roomName

/-- `SessionRegistry.get`: `Map.get`. -/
def registryGet {α : Type} (m : List (String × α)) (roomName : String) :
    Option α :=
  getKV m roomName

/-- `SessionRegistry.has`: `Map.has`. -/
def registryHas {α : Type} (m : List (String × α)) (roomName : String) : Bool :=
  hasKV m roomName

/-! ## User store (`apps/server/src/db/models/User.ts`)

The MongoDB `users` collection is modelled as a list of documents; `updateOne`
modifies the first match; `findOneAndUpdate` with `upsert: true` modifies the
first match or inserts.  Mongoose casts a plain update object to `$set`, so an
update sets exactly the provided fields. -/

/-- A `User` document (`userSchema`). -/
structure UserRecord where
  clerkId : String
  parentName : Option String := none
  childName : Option String := none
  chosenVoice : Option String := none
  chosenVoiceId : Option String := none
  anamVoiceId : Option String := none
  anamPersonaId : Option String := none
  onboardingComplete : Bool := false
  voiceRecordingUrl : Option String := none
deriving DecidableEq, Repr

/-- `Partial<Omit<OnboardingData, 'id' | 'createdAt'>>`: the fields `saveUser`
may set (a `none` field is absent from the partial object). -/
structure UserUpdate where
  parentName : Option String := none
  childName : Option String := none
  chosenVoice : Option String := none
  chosenVoiceId : Option String := none
  anamVoiceId : Option String := none
  anamPersonaId : Option String := none
  onboardingComplete : Option Bool := none
deriving DecidableEq, Repr

/-- Keep the provided value, else the existing one. -/
def setField {β : Type} (provided : Option β) (existing : β) : β :=
  match provided with
  | some v => v
  | none => existing

/-- `$set` of the provided fields onto an existing document. -/
def applyUpdate (u : UserRecord) (d : UserUpdate) : UserRecord :=
  { u with
    parentName := setField (d.parentName.map some) u.parentName
    childName := setField (d.childName.map some) u.childName
    chosenVoice := setField (d.chosenVoice.map some) u.chosenVoice
    chosenVoiceId := setField (d.chosenVoiceId.map some) u.chosenVoiceId
    anamVoiceId := setField (d.anamVoiceId.map some) u.anamVoiceId
    anamPersonaId := setField (d.anamPersonaId.map some) u.anamPersonaId
    onboardingComplete := setField d.onboardingComplete u.onboardingComplete }

/-- The document created by an upsert for a missing `clerkId`: the query key
plus the `$set` fields, with schema defaults everywhere else. -/
def newUserFromUpsert (clerkId : String) (d : UserUpdate) : UserRecord :=
  applyUpdate { clerkId := clerkId } d

/-- `Store.saveUser`: `User.findOneAndUpdate({clerkId}, {clerkId, ...data},
{upsert: true, new: true})` — update the first document matching `clerkId`,
or insert a fresh one. -/
def saveUser (db : List UserRecord) (clerkId : String) (d : UserUpdate) :
    List UserRecord :=
  match db with
  | [] => [newUserFromUpsert clerkId d]
  | u :: rest =>
    if u.clerkId = clerkId then applyUpdate u d :: rest
    else u :: saveUser rest clerkId d

/-- `User.updateOne({clerkId}, ...)` (no upsert): modify the first matching
document, if any. -/
def updateOneUser (db : List UserRecord) (clerkId : String)
    (f : UserRecord → UserRecord) : List UserRecord :=
  match db with
  | [] => []
  | u :: rest =>
    if u.clerkId = clerkId then f u :: rest
    else u :: updateOneUser rest clerkId f

/-- `Store.updateUserVoiceClone`: sets `anamVoiceId`, and `anamPersonaId` only
when the argument is truthy (present and not the empty string). -/
def updateUserVoiceClone (db : List UserRecord) (clerkId : String)
    (anamVoiceId : String) (anamPersonaId : Option String) : List UserRecord :=
  updateOneUser db clerkId fun u =>
    { u with
      anamVoiceId := some anamVoiceId
      anamPersonaId :=
        match anamPersonaId with
        | some p => if p = "" then u.anamPersonaId else some p
        | none => u.anamPersonaId }

/-- `Store.completeOnboarding`: sets `onboardingComplete` to `true`. -/
def completeOnboarding (db : List UserRecord) (clerkId : String) :
    List UserRecord :=
  updateOneUser db clerkId fun u => { u with onboardingComplete := true }

/-- `Store.getUser`: `User.findOne({clerkId})`. -/
def getUser (db : List UserRecord) (clerkId : String) : Option UserRecord :=
  db.find? (fun u => u.clerkId = clerkId)

/-! ## JS string utilities used by `apps/server/src/routes/story.ts`

`\s` in a JS regex (and `String.prototype.trim`) covers the ECMAScript white
space and line terminator code points. -/

/-- ECMAScript `\s`. -/
def isJsWs (c : Char) : Bool :=
  let n := c.toNat
  n = 32 || n = 9 || n = 10 || n = 11 || n = 12 || n = 13 ||
  n = 0xa0 || n = 0x1680 || (0x2000 ≤ n && n ≤ 0x200a) ||
  n = 0x2028 || n = 0x2029 || n = 0x202f || n = 0x205f || n = 0x3000 ||
  n = 0xfeff

/-- `String.prototype.trim` on a character list (left side). -/
def trimLeftChars (cs : List Char) : List Char :=
  cs.dropWhile isJsWs

/-- `String.prototype.trim` on a character list (right side). -/
def trimRightChars (cs : List Char) : List Char :=
  (cs.reverse.dropWhile isJsWs).reverse

/-- `String.prototype.trim`. -/
def jsTrim (s : String) : String :=
  String.mk (trimRightChars (trimLeftChars s.data))

/-! `split(/\n\s*\n/)` on characters, as a character-by-character scan.  A
match is a `'\n'`, a greedy run of white space, then a final `'\n'`; by
greediness a match runs from the first to the last `'\n'` of a maximal
white-space run, so a run with at least two newlines produces exactly one
match.  `sbNormal` accumulates the current segment (reversed); `sbPending`
is entered after a `'\n'`: `frozen` is the segment ended if a second newline
arrives, `tailRev` the white space seen since the most recent `'\n'`, and
`sawSecond` whether the run has at least two newlines. -/

mutual

def sbNormal : List Char → List Char → List (List Char)
  | [], segRev => [segRev.reverse]
  | c :: rest, segRev =>
    if c = '\n' then sbPending rest segRev [] false
    else sbNormal rest (c :: segRev)

def sbPending : List Char → List Char → List Char → Bool → List (List Char)
  | [], frozen, tailRev, sawSecond =>
    if sawSecond then [frozen.reverse, tailRev.reverse]
    else [(tailRev ++ '\n' :: frozen).reverse]
  | c :: rest, frozen, tailRev, sawSecond =>
    if c = '\n' then sbPending rest frozen [] true
    else if isJsWs c then sbPending rest frozen (c :: tailRev) sawSecond
    else if sawSecond then frozen.reverse :: sbNormal rest (c :: tailRev)
    else sbNormal rest (c :: (tailRev ++ '\n' :: frozen))

end

/-- `text.split(/\n\s*\n/)`. -/
def splitBlank (s : String) : List String :=
  (sbNormal s.data []).map String.mk

/-- `text.split(/\n\s*\n/).map(p => p.trim()).filter(p => p.length > 0)` — the
paragraph computation shared by `POST /api/story/start` and
`splitIntoChunks`. -/
def splitParagraphs (s : String) : List String :=
  ((splitBlank s).map jsTrim).filter (fun p => p.length > 0)

/-- JS `a || b` on an optional string (absent and `""` are falsy). -/
def truthyOr (v : Option String) (d : String) : String :=
  match v with
  | some s => if s = "" then d else s
  | none => d

/-! ## Story store and routes (`apps/server/src/routes/story.ts`,
story schema in `db`)

`Story.create` appends a document; `createdAt` comes from the `timestamps`
option and is modelled as a `Nat`. -/

inductive StoryMode where
  | predefined
  | generated
  | previous
deriving DecidableEq, Repr

/-- A `Story` document (`storySchema`). -/
structure StoryRecord where
  storyId : String
  clerkUserId : String
  mode : StoryMode
  text : String
  paragraphs : List String
  createdAt : Nat
deriving DecidableEq, Repr

/-- `toStoryResponse`: the fields returned to clients (drops `clerkUserId`). -/
structure StoryResponse where
  storyId : String
  mode : StoryMode
  text : String
  paragraphs : List String
  createdAt : Nat
deriving DecidableEq, Repr

def toStoryResponse (s : StoryRecord) : StoryResponse :=
  { storyId := s.storyId, mode := s.mode, text := s.text,
    paragraphs := s.paragraphs, createdAt := s.createdAt }

/-- `Story.create`: append-only insert. -/
def saveStory (db : List StoryRecord) (s : StoryRecord) : List StoryRecord :=
  db ++ [s]

/-- `Story.findOne({storyId})`. -/
def findStory (db : List StoryRecord) (storyId : String) : Option StoryRecord :=
  db.find? (fun s => s.storyId = storyId)

/-- A document of maximal `createdAt` (MongoDB
`findOne(...).sort({createdAt: -1}).limit(1)`; ties broken arbitrarily by the
database, here by list position). -/
def latestOf : List StoryRecord → Option StoryRecord
  | [] => none
  | s :: rest =>
    match latestOf rest with
    | none => some s
    | some t => if t.createdAt > s.createdAt then some t else some s

/-- `Store.getLatestStoryForUser` (`User.ts` lines 158-161). -/
def getLatestStoryForUser (db : List StoryRecord) (clerkUserId : String) :
    Option StoryRecord :=
  latestOf (db.filter (fun s => s.clerkUserId = clerkUserId))

/-- `Store.getStoriesForUser` filter (association to a user). -/
def storiesForUser (db : List StoryRecord) (clerkUserId : String) :
    List StoryRecord :=
  db.filter (fun s => s.clerkUserId = clerkUserId)

/-- The two `PREDEFINED_STORIES` of `routes/story.ts` (texts abbreviated to
their first paragraphs; only identity and position matter to the claims). -/
def PREDEFINED_STORIES : List String :=
  ["Once upon a time, in a cozy little house on Maple Street, there lived a curious child who loved to explore.\n\nEvery morning, they would wake up early and look out the window at the garden below. The flowers swayed gently in the breeze, and butterflies danced from petal to petal.\n\nOne special day, something magical happened. A tiny door appeared at the base of the old oak tree, and our brave little adventurer knew that a wonderful journey was about to begin.",
   "In a land where dreams come true, there was a special place called Starlight Meadow.\n\nThe meadow was home to friendly creatures who loved to play and sing. Every night, when the stars came out, they would gather to share stories and make wishes.\n\nAnd on this particular evening, a new friend was about to arrive, bringing with them the most wonderful adventure anyone had ever seen."]

/-- `generateMockStory(childName, parentName)`. -/
def generateMockStory (childName parentName : String) : String :=
  "Once upon a time, " ++ childName ++ " went on an amazing adventure with " ++
  parentName ++ ".\n\nThey discovered a magical forest where the trees whispered secrets and the flowers glowed with rainbow colors. Together, they followed a sparkling path that led deeper into the enchanted woods.\n\nAt the end of their journey, they found a hidden treasure - not gold or jewels, but something far more precious: a beautiful memory they would share forever. And " ++
  childName ++ " knew that with " ++ parentName ++
  " by their side, every day could be an adventure."

/-- The JSON body of a successful `POST /api/story/start`. -/
structure StartStoryResponse where
  success : Bool
  storyId : String
  mode : StoryMode
  text : String
  paragraphs : List String
  paragraphCount : Nat
deriving DecidableEq, Repr

/-- The story text chosen by the `switch (mode)` of `POST /api/story/start`.
`randIdx` models `Math.floor(Math.random() * PREDEFINED_STORIES.length)`. -/
def chooseStoryText (stories : List StoryRecord) (users : List UserRecord)
    (clerkUserId : String) (mode : StoryMode) (randIdx : Fin 2) : String :=
  match mode with
  | .predefined =>
    PREDEFINED_STORIES.get ⟨randIdx.val, by simp [PREDEFINED_STORIES]⟩
  | .previous =>
    match getLatestStoryForUser stories clerkUserId with
    | some previousStory => previousStory.text
    | none => PREDEFINED_STORIES.head!
  | .generated =>
    let user := getUser users clerkUserId
    let childName := truthyOr (user.bind (·.childName)) "little one"
    let parentName := truthyOr (user.bind (·.parentName)) "dear friend"
    generateMockStory childName parentName

/-- `POST /api/story/start` for an authenticated user with a valid mode:
choose the text, split into paragraphs, save the story, respond.  `newId` and
`now` model `generateStoryId()` and the `createdAt` timestamp. -/
def startStoryRoute (stories : List StoryRecord) (users : List UserRecord)
    (clerkUserId : String) (mode : StoryMode) (randIdx : Fin 2)
    (newId : String) (now : Nat) : List StoryRecord × StartStoryResponse :=
  let storyText := chooseStoryText stories users clerkUserId mode randIdx
  let paragraphs := splitParagraphs storyText
  let story : StoryRecord :=
    { storyId := newId, clerkUserId := clerkUserId, mode := mode,
      text := storyText, paragraphs := paragraphs, createdAt := now }
  (saveStory stories story,
   { success := true, storyId := newId, mode := mode, text := storyText,
     paragraphs := paragraphs, paragraphCount := paragraphs.length })

/-- HTTP bodies produced by `GET /api/story/:id` and the `isAuthenticated`
middleware. -/
inductive HttpBody where
  | unauthorized (error : String) (message : String)
  | notFound (error : String)
  | story (body : StoryResponse)
deriving DecidableEq, Repr

structure HttpResponse where
  status : Nat
  body : HttpBody
deriving DecidableEq, Repr

/-- `GET /api/story/:id` behind the `isAuthenticated` middleware
(`routes/story.ts` lines 186-203; mounting in the server entry point).  The
authenticated requester identity is available but never read by the route
handler. -/
def getStoryRoute (stories : List StoryRecord) (storyId : String)
    (auth : Option String) : HttpResponse :=
  match auth with
  | none =>
    { status := 401,
      body := .unauthorized "Unauthorized"
        "You must be signed in to access this resource" }
  | some _ =>
    match findStory stories storyId with
    | none => { status := 404, body := .notFound "Story not found" }
    | some s => { status := 200, body := .story (toStoryResponse s) }

/-! ## Audio chunks (`routes/story.ts` lines 215-246 and 125-163) -/

/-- A sentence terminator for the regex `[^.!?]+[.!?]+`. -/
def isTerm (c : Char) : Bool :=
  c = '.' || c = '!' || c = '?'

/-- `paragraph.match(/[^.!?]+[.!?]+/g)` on characters, as a scan: each match
is a maximal nonempty run of non-terminators followed by a maximal nonempty
run of terminators; a position holding a terminator cannot start a match and
is skipped.  `cur` is the current partial match (reversed); `seenTerm` is
true while scanning the terminator run, so a non-terminator then completes
the match. -/
def sentScan : List Char → List Char → Bool → List (List Char)
  | [], cur, seenTerm => if seenTerm then [cur.reverse] else []
  | c :: rest, cur, seenTerm =>
    if isTerm c then
      if cur.isEmpty then sentScan rest [] false
      else sentScan rest (c :: cur) true
    else
      if seenTerm then cur.reverse :: sentScan rest [c] false
      else sentScan rest (c :: cur) false

/-- `paragraph.match(/[^.!?]+[.!?]+/g) || [paragraph]`. -/
def sentencesOf (p : String) : List String :=
  match sentScan p.data [] false with
  | [] => [p]
  | l => l.map String.mk

/-- An `AudioChunk` (`routes/story.ts` lines 24-28). -/
structure AudioChunk where
  index : Nat
  text : String
  duration : Int
deriving DecidableEq, Repr

/-! The duration `Math.ceil((len / 5) * (60 / 150) * 1000)` is computed by the
program in IEEE-754 binary64 arithmetic, where each division and
multiplication rounds its exact result to 53 significant bits (round to
nearest, ties to even).  The rounding makes the result differ from the exact
value `80 * len`: for many lengths (1, 2, 4, 8, 9, 11, ...) the double
computation yields `80 * len + 1`.  Nonnegative doubles are modelled as
dyadic pairs `(m, e)` of value `m * 2^e`; binary64 overflow to infinity is
not modelled, as it needs a factor above `2^1024` and ECMAScript strings are
capped at `2^53 - 1` code units, far below. -/

/-- Floor of `log2 n` (with `log2 0 = 0`), fuelled for structural recursion
so that proofs can evaluate it by kernel reduction. -/
def log2Fuel : Nat → Nat → Nat
  | 0, _ => 0
  | fuel + 1, n => if 2 ≤ n then log2Fuel fuel (n / 2) + 1 else 0

def floorLog2 (n : Nat) : Nat := log2Fuel n n

/-- Whether `n / d < 2^a`, for positive naturals and an integer exponent
(one of the two power factors is always `2^0 = 1`). -/
def ratLtPow2 (n d : Nat) (a : Int) : Bool :=
  n * 2 ^ (-a).toNat < d * 2 ^ a.toNat

/-- Round the nonnegative rational `n / d` (`d > 0`) to 53 significant bits —
IEEE-754 binary64, round to nearest, ties to even — returned as a dyadic
pair.  `floorLog2 n - floorLog2 d` bounds the exponent of `n / d` within one,
so one comparison pins `k = ⌊log2 (n / d)⌋`; the significand is then the
correctly rounded integer in `[2^52, 2^53)` (bumped one binade up when
rounding reaches `2^53`). -/
def roundFloat (n d : Nat) : Nat × Int :=
  if n = 0 then (0, 0) else
  let a : Int := (floorLog2 n : Int) - (floorLog2 d : Int)
  let k : Int := if ratLtPow2 n d a then a - 1 else a
  let e : Int := k - 52
  let N := n * 2 ^ (-e).toNat
  let D := d * 2 ^ e.toNat
  let q := N / D
  let r := N % D
  let m := if 2 * r < D then q
           else if D < 2 * r then q + 1
           else if q % 2 = 0 then q else q + 1
  if m = 2 ^ 53 then (2 ^ 52, e + 1) else (m, e)

/-- The double of a natural number (exact below `2^53`, rounded above). -/
def fofNat (n : Nat) : Nat × Int := roundFloat n 1

/-- Binary64 division of a double by an exactly representable natural. -/
def fdiv (x : Nat × Int) (d : Nat) : Nat × Int :=
  let p := roundFloat x.1 d
  (p.1, p.2 + x.2)

/-- Binary64 multiplication: the exact product, correctly rounded. -/
def fmul (x y : Nat × Int) : Nat × Int :=
  let p := roundFloat (x.1 * y.1) 1
  (p.1, p.2 + x.2 + y.2)

/-- `Math.ceil` of a nonnegative double, as an integer. -/
def fceil (x : Nat × Int) : Int :=
  if 0 ≤ x.2 then ((x.1 * 2 ^ x.2.toNat : Nat) : Int)
  else (((x.1 + 2 ^ (-x.2).toNat - 1) / 2 ^ (-x.2).toNat : Nat) : Int)

/-- `Math.ceil((len / 5) * (60 / 150) * 1000)` in binary64 arithmetic: `len`,
`5`, `60`, `150` and `1000` are exact doubles; the two divisions and two
multiplications each round to nearest. -/
def durationMs (len : Nat) : Int :=
  fceil (fmul (fmul (fdiv (fofNat len) 5) (fdiv (fofNat 60) 150)) (fofNat 1000))

/-- `chunks.push({index: chunks.length, text, duration})`. -/
def pushChunk (cs : List AudioChunk) (t : String) : List AudioChunk :=
  cs ++ [{ index := cs.length, text := t, duration := durationMs t.length }]

/-- `splitIntoChunks` (`routes/story.ts` lines 215-246). -/
def splitIntoChunks (text : String) : List AudioChunk :=
  (splitParagraphs text).foldl
    (fun cs p =>
      if p.length > 200 then
        (sentencesOf p).foldl (fun cs2 s => pushChunk cs2 (jsTrim s)) cs
      else pushChunk cs p)
    []

/-- `AudioChunksResponse` (`routes/story.ts` lines 30-34). -/
structure AudioChunksResponse where
  chunks : List AudioChunk
  voiceId : String
  totalChunks : Nat
deriving DecidableEq, Repr

/-- `POST /api/story/audio-chunks` for an authenticated user with a present
`storyText`. -/
def audioChunksRoute (users : List UserRecord) (clerkUserId : String)
    (storyText : String) (voiceIdParam : Option String) : AudioChunksResponse :=
  let user := getUser users clerkUserId
  let effectiveVoiceId :=
    truthyOr voiceIdParam (truthyOr (user.bind (·.chosenVoiceId)) "default")
  let chunks := splitIntoChunks storyText
  { chunks := chunks, voiceId := effectiveVoiceId, totalChunks := chunks.length }

/-! ## Story synopsis (`agent-logic/agents/storytelling-agent.ts`)

`createStorySynopsis` accumulates the LLM stream into `content`, strips
markdown code fences, extracts the first-`\x7b`-to-last-`\x7d` JSON candidate
and `JSON.parse`s it; on any failure it returns `createFallbackSynopsis`.
The LLM content and the JSON parser (`JSON.parse` plus the unchecked
`as StorySynopsis` cast) are parameters of the embedding. -/

structure CharacterSpec where
  name : String
  description : String
  role : String
deriving DecidableEq, Repr

structure StorySynopsis where
  title : String
  premise : String
  mainCharacters : List CharacterSpec
  setting : String
  theme : String
  moralLesson : String
  estimatedPages : Nat
  outline : List String
deriving DecidableEq, Repr

inductive StoryLength where
  | quick
  | medium
  | bedtime
deriving DecidableEq, Repr

structure ParentPersona where
  name : String
  storytellingStyle : String
  voiceTone : String
  favoriteThemes : List String
  specialPhrases : Option (List String) := none
  values : List String
  avoidTopics : Option (List String) := none
deriving DecidableEq, Repr

structure ChildProfile where
  name : String
  age : Nat
  interests : List String
  fears : Option (List String) := none
  favoriteCharacters : Option (List String) := none
  attentionSpan : String
  preferredStoryLength : StoryLength
deriving DecidableEq, Repr

structure StoryContext where
  parentPersona : ParentPersona
  childProfile : ChildProfile
  rawMarkdown : String
deriving DecidableEq, Repr

/-- `getStoryLengthConfig`: pages and description per preferred length. -/
def getStoryLengthConfig : StoryLength → Nat × String
  | .quick => (3, "3 short pages")
  | .medium => (5, "5 medium pages")
  | .bedtime => (8, "8 cozy pages")

/-- JS `arr[i] || d`: out-of-range indexing yields `undefined`, and `""` is
falsy. -/
def idxOr (l : List String) (i : Nat) (d : String) : String :=
  match l.get? i with
  | some s => if s = "" then d else s
  | none => d

/-- `createFallbackSynopsis` (`storytelling-agent.ts` lines 311-342). -/
def createFallbackSynopsis (context : StoryContext) (_request : String) :
    StorySynopsis :=
  let childProfile := context.childProfile
  let parentPersona := context.parentPersona
  let lengthConfig := getStoryLengthConfig childProfile.preferredStoryLength
  { title := childProfile.name ++ "\x27s Magical Adventure",
    premise := childProfile.name ++
      " discovers something wonderful that leads to an adventure filled with " ++
      idxOr parentPersona.favoriteThemes 0 "friendship" ++ " and " ++
      idxOr parentPersona.favoriteThemes 1 "courage" ++ ".",
    mainCharacters :=
      [{ name := childProfile.name,
         description := "A curious " ++ toString childProfile.age ++
           "-year-old who loves " ++ idxOr childProfile.interests 0 "adventures",
         role := "protagonist" },
       { name := "Friendly Guide",
         description := "A helpful companion who appears when needed",
         role := "sidekick" }],
    setting := "A magical world just beyond the everyday",
    theme := idxOr parentPersona.favoriteThemes 0 "friendship",
    moralLesson := idxOr parentPersona.values 0 "Being kind always matters",
    estimatedPages := lengthConfig.1,
    outline :=
      (["The ordinary day turns extraordinary",
        "A challenge appears that needs solving",
        "Help comes from an unexpected place",
        "The lesson is learned through experience",
        "Home sweet home, wiser than before"].take lengthConfig.1) }

def backtickChar : Char := Char.ofNat 96
def lbraceChar : Char := Char.ofNat 123
def rbraceChar : Char := Char.ofNat 125

/-- Case-insensitive prefix test (for the `/^```json\s*/i` replace). -/
def startsWithCI : List Char → List Char → Bool
  | [], _ => true
  | _ :: _, [] => false
  | p :: ps, c :: cs => p.toLower = c.toLower && startsWithCI ps cs

/-- `` cs ends in a ``` fence followed only by white space ``. -/
def hasFenceToEnd (cs : List Char) : Bool :=
  match cs with
  | a :: b :: c :: rest =>
    a = backtickChar && b = backtickChar && c = backtickChar &&
      rest.all isJsWs
  | _ => false

/-- `` .replace(/```\s*$/, '') ``: cut at the leftmost ``` that is followed
only by white space up to the end. -/
def stripTrailingFence : List Char → List Char
  | [] => []
  | c :: rest =>
    if hasFenceToEnd (c :: rest) then [] else c :: stripTrailingFence rest

/-- The fence-stripping prelude of `createStorySynopsis`:
`content.trim()`, then the three `replace` calls. -/
def stripFences (content : String) : String :=
  let cs0 := (jsTrim content).data
  let cs1 :=
    if startsWithCI "```json".data cs0 then (cs0.drop 7).dropWhile isJsWs
    else cs0
  let cs2 :=
    if "```".data.isPrefixOf cs1 then (cs1.drop 3).dropWhile isJsWs
    else cs1
  String.mk (stripTrailingFence cs2)

/-- `cleanContent.match(/\x7b[\s\S]*\x7d/)`: greedy, so the match runs from
the first opening brace to the last closing brace, provided the latter comes
after the former. -/
def extractJsonObject (s : String) : Option String :=
  let cs := s.data
  match cs.findIdx? (fun c => c = lbraceChar) with
  | none => none
  | some i =>
    match cs.reverse.findIdx? (fun c => c = rbraceChar) with
    | none => none
    | some jr =>
      let j := cs.length - 1 - jr
      if i < j then some (String.mk ((cs.drop i).take (j - i + 1))) else none

/-- `createStorySynopsis` (`storytelling-agent.ts` lines 261-309), with the
accumulated LLM output `content` and the JSON parser as parameters. -/
def createStorySynopsis (parseJson : String → Option StorySynopsis)
    (content : String) (context : StoryContext) (childRequest : String) :
    StorySynopsis :=
  match extractJsonObject (stripFences content) with
  | some jsonText =>
    match parseJson jsonText with
    | some parsed => parsed
    | none => createFallbackSynopsis context childRequest
  | none => createFallbackSynopsis context childRequest

/-! ## Voice update (`managers/agent-session-manager.ts` lines 160-180) -/

/-- The `elevenlabs.TTS` configuration built by `updateVoiceId`. -/
structure TtsConfig where
  modelID : String
  voiceId : String
  voiceName : String
  voiceCategory : String
  apiKey : String
deriving DecidableEq, Repr

/-- The manager state `updateVoiceId` touches: `this.voiceId` and
`this.session.tts`. -/
structure VoiceState where
  voiceId : String
  sessionTts : TtsConfig
deriving DecidableEq, Repr

/-- `AgentSessionManager.updateVoiceId(newVoiceId)`: overwrites `this.voiceId`
with the literal `'YEPxsTk32dk1sVTotPBJ'` and replaces `session.tts` with a
TTS built from that same literal; `envModelID` models
`process.env.MODEL_ID!`. -/
def updateVoiceId (envModelID : String) (_st : VoiceState)
    (_newVoiceId : String) : VoiceState :=
  { voiceId := "YEPxsTk32dk1sVTotPBJ",
    sessionTts :=
      { modelID := envModelID,
        voiceId := "YEPxsTk32dk1sVTotPBJ",
        voiceName := "Mike",
        voiceCategory := "premium",
        apiKey := "sk_1ccaaa5fdebadda255af4c41d8802042458231ab4155bac9" } }

/-! # Lemmas about the JS `Map` model -/

theorem getKV_setKV_self {α : Type} (m : List (String × α)) (k : String) (v : α) :
    getKV (setKV m k v) k = some v := by
  induction m with
  | nil => simp [setKV, getKV]
  | cons hd tl ih =>
    obtain ⟨k0, v0⟩ := hd
    by_cases h : k0 = k
    · simp [setKV, getKV, h]
    · simp [setKV, getKV, h, ih]

theorem getKV_setKV_ne {α : Type} (m : List (String × α)) (k k' : String) (v : α)
    (hne : k' ≠ k) : getKV (setKV m k v) k' = getKV m k' := by
  have hkk : k ≠ k' := Ne.symm hne
  induction m with
  | nil => simp [setKV, getKV, hkk]
  | cons hd tl ih =>
    obtain ⟨k0, v0⟩ := hd
    by_cases h : k0 = k
    · subst h
      simp [setKV, getKV, hkk]
    · simp [setKV, getKV, h, ih]

theorem getKV_delKV_ne {α : Type} (m : List (String × α)) (k k' : String)
    (hne : k' ≠ k) : getKV (delKV m k) k' = getKV m k' := by
  have hkk : k ≠ k' := Ne.symm hne
  induction m with
  | nil => simp [delKV]
  | cons hd tl ih =>
    obtain ⟨k0, v0⟩ := hd
    by_cases h : k0 = k
    · subst h
      simp [delKV, getKV, hkk]
    · simp [delKV, getKV, h, ih]

theorem getKV_not_mem {α : Type} (m : List (String × α)) (k : String)
    (h : k ∉ keysOf m) : getKV m k = none := by
  induction m with
  | nil => simp [getKV]
  | cons hd tl ih =>
    obtain ⟨k0, v0⟩ := hd
    simp only [keysOf, List.map_cons, List.mem_cons, not_or] at h
    have hne : ¬(k0 = k) := fun he => h.1 he.symm
    simp only [getKV, if_neg hne]
    exact ih h.2

theorem getKV_delKV_self {α : Type} (m : List (String × α)) (k : String)
    (hnd : (keysOf m).Nodup) : getKV (delKV m k) k = none := by
  induction m with
  | nil => simp [delKV, getKV]
  | cons hd tl ih =>
    obtain ⟨k0, v0⟩ := hd
    simp only [keysOf, List.map_cons, List.nodup_cons] at hnd
    by_cases h : k0 = k
    · subst h
      simp only [delKV, if_pos rfl]
      exact getKV_not_mem tl k0 hnd.1
    · simp only [delKV, if_neg h, getKV, if_neg h]
      exact ih hnd.2

/-! # Claim theorems -/

/-- C6: the session registry is a key-value map with last-write-wins
semantics: after `register(r, c1)` then `register(r, c2)`, `get(r)` returns
`c2`; after `unregister(r)` (on a registry with unique keys, as every JS map
has), `get(r)` is `undefined` and `has(r)` is false; and `register` and
`unregister` on `r` leave every other room name unchanged. -/
theorem sessionRegistry_lastWriteWins {α : Type} (m : List (String × α))
    (r r' : String) (c c1 c2 : α) :
    registryGet (registrySet (registrySet m r c1) r c2) r = some c2 ∧
    ((keysOf m).Nodup →
      registryGet (registryDel m r) r = none ∧
      registryHas (registryDel m r) r = false) ∧
    (r' ≠ r →
      registryGet (registrySet m r c) r' = registryGet m r' ∧
      registryGet (registryDel m r) r' = registryGet m r') := by
  refine ⟨getKV_setKV_self _ _ _, fun hnd => ?_, fun hne => ?_⟩
  · have h := getKV_delKV_self m r hnd
    exact ⟨h, by simp [registryHas, hasKV, registryDel, h]⟩
  · exact ⟨getKV_setKV_ne m r r' c hne, getKV_delKV_ne m r r' hne⟩

/-- Witness for C6 at a concrete registry over `Nat` contexts. -/
theorem sessionRegistry_lastWriteWins_witness :
    registryGet (registrySet (registrySet [("other", 0)] "room" 2) "room" 3) "room" =
      some 3 ∧
    (registryGet (registryDel [("other", 0)] "room") "room" = none ∧
     registryHas (registryDel [("other", 0)] "room") "room" = false) ∧
    (registryGet (registrySet [("other", 0)] "room" 1) "other" =
       registryGet [("other", 0)] "other" ∧
     registryGet (registryDel [("other", 0)] "room") "other" =
       registryGet [("other", 0)] "other") := by
  have h := sessionRegistry_lastWriteWins (α := Nat) [("other", 0)] "room" "other" 1 2 3
  exact ⟨h.1, h.2.1 (by decide), h.2.2 (by decide)⟩

/-- C8: the response of `GET /api/story/:id` does not depend on which
authenticated user makes the request — the route handler never reads the
requester identity, so any two authenticated requesters receive the same
story body for the same `storyId`. -/
theorem getStory_requester_independent (stories : List StoryRecord)
    (storyId : String) (u1 u2 : String) :
    getStoryRoute stories storyId (some u1) = getStoryRoute stories storyId (some u2) :=
  rfl

/-- C9: `AgentSessionManager.updateVoiceId` ignores its argument: for every
argument the stored `voiceId` and the new TTS voice are the literal
`'YEPxsTk32dk1sVTotPBJ'`, and the result does not depend on the argument at
all. -/
theorem updateVoiceId_ignores_argument (envModelID : String) (st : VoiceState)
    (a b : String) :
    (updateVoiceId envModelID st a).voiceId = "YEPxsTk32dk1sVTotPBJ" ∧
    (updateVoiceId envModelID st a).sessionTts.voiceId = "YEPxsTk32dk1sVTotPBJ" ∧
    updateVoiceId envModelID st a = updateVoiceId envModelID st b :=
  ⟨rfl, rfl, rfl⟩

/-- Dispatch step of `processAction` once the handler is found. -/
theorem processAction_some (m : List (String × Handler)) (st : AgentState)
    (req : ActionRequest) (h : Handler) (hget : getKV m req.action = some h) :
    processAction m st req =
      match h.validateFn with
      | some v =>
        if v req.payload then h.handle st req
        else (st, invalidPayloadResponse req.action)
      | none => h.handle st req := by
  simp only [processAction, hget]

/-- The invalid-payload error is never the unknown-action error of the
registered manager (their error strings have different lengths). -/
theorem invalidPayload_ne_unknown (a : String) :
    invalidPayloadResponse a ≠ unknownActionResponse registeredHandlers a := by
  intro heq
  have he := congrArg ActionResponse.error heq
  simp only [invalidPayloadResponse, unknownActionResponse, Option.some.injEq] at he
  have hl := congrArg String.length he
  have l1 : ("Invalid payload for action: ").length = 28 := rfl
  have l2 : ("Unknown action: ").length = 16 := rfl
  have l3 : (". Available actions: ").length = 21 := rfl
  have l4 : (String.intercalate ", " (keysOf registeredHandlers)).length = 16 := rfl
  simp only [String.length_append, l1, l2, l3, l4] at hl
  omega

/-- No response of the three registered handlers is the unknown-action
response: `say` and `store` always succeed, and `play` either succeeds or
returns an error carrying `data`. -/
theorem handle_ne_unknown (h : Handler)
    (hmem : h = sayHandler ∨ h = storeHandler ∨ h = playHandler)
    (st : AgentState) (req : ActionRequest) (a : String) :
    (h.handle st req).2 ≠ unknownActionResponse registeredHandlers a := by
  have hsu : (unknownActionResponse registeredHandlers a).success = false := rfl
  have hda : (unknownActionResponse registeredHandlers a).data = none := rfl
  rcases hmem with hm | hm | hm <;> subst hm
  · intro heq
    have := congrArg ActionResponse.success heq
    rw [hsu] at this
    exact Bool.true_eq_false.mp this
  · intro heq
    have := congrArg ActionResponse.success heq
    rw [hsu] at this
    exact Bool.true_eq_false.mp this
  · simp only [playHandler]
    cases hlook : getKV st.storage (asString (req.payload.bind (·.id))) with
    | none =>
      simp only [hlook]
      intro heq
      have := congrArg ActionResponse.data heq
      rw [hda] at this
      exact Option.some_ne_none _ this
    | some text =>
      simp only [hlook]
      intro heq
      have := congrArg ActionResponse.success heq
      rw [hsu] at this
      exact Bool.true_eq_false.mp this

/-- The registered response never falls into the unknown-action branch when a
handler is registered for the action. -/
theorem processAction_ne_unknown (st : AgentState) (req : ActionRequest)
    (h : Handler) (hget : getKV registeredHandlers req.action = some h)
    (hmem : h = sayHandler ∨ h = storeHandler ∨ h = playHandler) :
    (processAction registeredHandlers st req).2 ≠
      unknownActionResponse registeredHandlers req.action := by
  rw [processAction_some registeredHandlers st req h hget]
  cases hval : h.validateFn with
  | none => exact handle_ne_unknown h hmem st req req.action
  | some v =>
    by_cases hb : v req.payload
    · simp only [hb, if_true]
      exact handle_ne_unknown h hmem st req req.action
    · simp only [hb, if_false, Bool.false_eq_true]
      exact invalidPayload_ne_unknown req.action

/-- C1 (amended): the registered dispatch surface accepts the three actions
`say`, `store` and `play`: each has a registered handler, and `processAction`
returns a handler or validation response, never the unknown-action error.
(`change_voice` is not registered; see the counterexample.) -/
theorem registered_actions_dispatch (st : AgentState) (req : ActionRequest)
    (h : req.action = "say" ∨ req.action = "store" ∨ req.action = "play") :
    hasHandler registeredHandlers req.action = true ∧
    (processAction registeredHandlers st req).2 ≠
      unknownActionResponse registeredHandlers req.action := by
  rcases h with h | h | h
  · have hget : getKV registeredHandlers req.action = some sayHandler := by rw [h]; rfl
    exact ⟨by rw [hasHandler, hasKV, hget]; rfl,
      processAction_ne_unknown st req sayHandler hget (Or.inl rfl)⟩
  · have hget : getKV registeredHandlers req.action = some storeHandler := by rw [h]; rfl
    exact ⟨by rw [hasHandler, hasKV, hget]; rfl,
      processAction_ne_unknown st req storeHandler hget (Or.inr (Or.inl rfl))⟩
  · have hget : getKV registeredHandlers req.action = some playHandler := by rw [h]; rfl
    exact ⟨by rw [hasHandler, hasKV, hget]; rfl,
      processAction_ne_unknown st req playHandler hget (Or.inr (Or.inr rfl))⟩

/-- Witness for C1 (amended) at the `say` action with a valid payload. -/
theorem registered_actions_dispatch_witness :
    hasHandler registeredHandlers "say" = true ∧
    (processAction registeredHandlers {}
        { action := "say", payload := some { text := some (.str "hello") } }).2 ≠
      unknownActionResponse registeredHandlers "say" :=
  registered_actions_dispatch {}
    { action := "say", payload := some { text := some (.str "hello") } }
    (Or.inl rfl)

/-- `$set` never changes the key field. -/
theorem applyUpdate_clerkId (u : UserRecord) (d : UserUpdate) :
    (applyUpdate u d).clerkId = u.clerkId := rfl

/-- A clerk id appearing after `saveUser` appeared before, or is the saved one. -/
theorem mem_map_saveUser (db : List UserRecord) (c : String) (d : UserUpdate)
    (x : String) (hx : x ∈ (saveUser db c d).map UserRecord.clerkId) :
    x ∈ db.map UserRecord.clerkId ∨ x = c := by
  induction db with
  | nil =>
    simp only [saveUser, List.map_cons, List.map_nil, List.mem_singleton,
      newUserFromUpsert, applyUpdate_clerkId] at hx
    exact Or.inr hx
  | cons u rest ih =>
    by_cases h : u.clerkId = c
    · simp only [saveUser, if_pos h, List.map_cons, List.mem_cons,
        applyUpdate_clerkId] at hx
      rcases hx with hx | hx
      · exact Or.inl (by simp [hx])
      · simp only [List.map_cons, List.mem_cons]
        tauto
    · simp only [saveUser, if_neg h, List.map_cons, List.mem_cons] at hx
      rcases hx with hx | hx
      · exact Or.inl (by simp [hx])
      · rcases ih hx with hh | hh
        · exact Or.inl (by simp [hh])
        · exact Or.inr hh

/-- `saveUser` preserves key uniqueness (the upsert updates in place or
appends a key that was absent). -/
theorem saveUser_nodup (db : List UserRecord) (c : String) (d : UserUpdate)
    (h : (db.map UserRecord.clerkId).Nodup) :
    ((saveUser db c d).map UserRecord.clerkId).Nodup := by
  induction db with
  | nil => simp [saveUser]
  | cons u rest ih =>
    simp only [List.map_cons, List.nodup_cons] at h
    by_cases hc : u.clerkId = c
    · simp only [saveUser, if_pos hc, List.map_cons, List.nodup_cons,
        applyUpdate_clerkId]
      exact ⟨h.1, h.2⟩
    · simp only [saveUser, if_neg hc, List.map_cons, List.nodup_cons]
      refine ⟨fun hmem => ?_, ih h.2⟩
      rcases mem_map_saveUser rest c d u.clerkId hmem with hh | hh
      · exact h.1 hh
      · exact hc hh

/-- After `saveUser`, a record with the saved clerk id exists. -/
theorem saveUser_contains (db : List UserRecord) (c : String) (d : UserUpdate) :
    c ∈ (saveUser db c d).map UserRecord.clerkId := by
  induction db with
  | nil =>
    simp [saveUser, newUserFromUpsert, applyUpdate_clerkId]
  | cons u rest ih =>
    by_cases h : u.clerkId = c
    · simp [saveUser, if_pos h, applyUpdate_clerkId, h]
    · simp only [saveUser, if_neg h, List.map_cons, List.mem_cons]
      exact Or.inr ih

/-- When a record with the clerk id exists, `saveUser` updates in place and
the collection size is unchanged. -/
theorem saveUser_length_of_mem (db : List UserRecord) (c : String)
    (d : UserUpdate) (h : c ∈ db.map UserRecord.clerkId) :
    (saveUser db c d).length = db.length := by
  induction db with
  | nil => simp at h
  | cons u rest ih =>
    by_cases hc : u.clerkId = c
    · simp [saveUser, if_pos hc]
    · simp only [List.map_cons, List.mem_cons] at h
      rcases h with h | h
      · exact absurd h.symm hc
      · simp [saveUser, if_neg hc, ih h]

/-- `updateOne` touches at most the first record matching the clerk id, and
never the key field. -/
theorem updateOneUser_forall₂ (db : List UserRecord) (c : String)
    (f : UserRecord → UserRecord) (hf : ∀ u, (f u).clerkId = u.clerkId) :
    List.Forall₂ (fun u w => w.clerkId = u.clerkId ∧ (u.clerkId ≠ c → w = u))
      db (updateOneUser db c f) := by
  induction db with
  | nil => exact List.Forall₂.nil
  | cons u rest ih =>
    by_cases hc : u.clerkId = c
    · simp only [updateOneUser, if_pos hc]
      refine List.Forall₂.cons ⟨hf u, fun hne => absurd hc hne⟩ ?_
      rw [List.forall₂_same]
      exact fun x _ => ⟨rfl, fun _ => rfl⟩
    · simp only [updateOneUser, if_neg hc]
      exact List.Forall₂.cons ⟨rfl, fun _ => rfl⟩ ih

/-- `updateOne` preserves the multiset of clerk ids exactly. -/
theorem updateOneUser_map_clerkId (db : List UserRecord) (c : String)
    (f : UserRecord → UserRecord) (hf : ∀ u, (f u).clerkId = u.clerkId) :
    (updateOneUser db c f).map UserRecord.clerkId = db.map UserRecord.clerkId := by
  induction db with
  | nil => rfl
  | cons u rest ih =>
    by_cases hc : u.clerkId = c
    · simp [updateOneUser, if_pos hc, hf u]
    · simp [updateOneUser, if_neg hc, ih]

/-- C2: every user-store operation preserves "at most one record per clerk
id": `saveUser` upserts keyed on `clerkId` (a second call with the same id
updates the existing record, leaving the collection size unchanged), and
`updateUserVoiceClone` and `completeOnboarding` only modify the existing
record for that clerk id, never touching other records or key fields. -/
theorem userStore_one_per_identity (db : List UserRecord) (c : String)
    (d d2 : UserUpdate) (av : String) (ap : Option String)
    (hnd : (db.map UserRecord.clerkId).Nodup) :
    ((saveUser db c d).map UserRecord.clerkId).Nodup ∧
    (saveUser (saveUser db c d) c d2).length = (saveUser db c d).length ∧
    ((updateUserVoiceClone db c av ap).map UserRecord.clerkId).Nodup ∧
    ((completeOnboarding db c).map UserRecord.clerkId).Nodup ∧
    List.Forall₂ (fun u w => w.clerkId = u.clerkId ∧ (u.clerkId ≠ c → w = u))
      db (updateUserVoiceClone db c av ap) ∧
    List.Forall₂ (fun u w => w.clerkId = u.clerkId ∧ (u.clerkId ≠ c → w = u))
      db (completeOnboarding db c) := by
  have hfv : ∀ u : UserRecord,
      ((fun u : UserRecord =>
        { u with
          anamVoiceId := some av
          anamPersonaId :=
            match ap with
            | some p => if p = "" then u.anamPersonaId else some p
            | none => u.anamPersonaId }) u).clerkId = u.clerkId :=
    fun _ => rfl
  have hfo : ∀ u : UserRecord,
      ((fun u : UserRecord => { u with onboardingComplete := true }) u).clerkId
        = u.clerkId := fun _ => rfl
  refine ⟨saveUser_nodup db c d hnd,
    saveUser_length_of_mem (saveUser db c d) c d2 (saveUser_contains db c d),
    ?_, ?_, updateOneUser_forall₂ db c _ hfv, updateOneUser_forall₂ db c _ hfo⟩
  · rw [updateUserVoiceClone, updateOneUser_map_clerkId db c _ hfv]
    exact hnd
  · rw [completeOnboarding, updateOneUser_map_clerkId db c _ hfo]
    exact hnd

/-- Witness for C2 on a two-user collection. -/
theorem userStore_one_per_identity_witness :
    (((saveUser [{ clerkId := "u1" }, { clerkId := "u2" }] "u1"
        { parentName := some "Pat" }).map UserRecord.clerkId).Nodup ∧
     (saveUser (saveUser [{ clerkId := "u1" }, { clerkId := "u2" }] "u1"
          { parentName := some "Pat" }) "u1"
        { childName := some "Kim" }).length =
       (saveUser [{ clerkId := "u1" }, { clerkId := "u2" }] "u1"
         { parentName := some "Pat" }).length ∧
     ((updateUserVoiceClone [{ clerkId := "u1" }, { clerkId := "u2" }] "u1"
        "voice1" (some "persona1")).map UserRecord.clerkId).Nodup ∧
     ((completeOnboarding [{ clerkId := "u1" }, { clerkId := "u2" }]
        "u1").map UserRecord.clerkId).Nodup ∧
     List.Forall₂ (fun u w => w.clerkId = u.clerkId ∧ (u.clerkId ≠ "u1" → w = u))
       [{ clerkId := "u1" }, { clerkId := "u2" }]
       (updateUserVoiceClone [{ clerkId := "u1" }, { clerkId := "u2" }] "u1"
         "voice1" (some "persona1")) ∧
     List.Forall₂ (fun u w => w.clerkId = u.clerkId ∧ (u.clerkId ≠ "u1" → w = u))
       [{ clerkId := "u1" }, { clerkId := "u2" }]
       (completeOnboarding [{ clerkId := "u1" }, { clerkId := "u2" }] "u1")) :=
  userStore_one_per_identity [{ clerkId := "u1" }, { clerkId := "u2" }] "u1"
    { parentName := some "Pat" } { childName := some "Kim" } "voice1"
    (some "persona1") (by decide)

/-- C3: an unknown action yields `{success:false}` with an error naming the
action and listing the registered names, without invoking any handler (the
state is returned unchanged); a registered action whose payload fails the
handler's `validate` yields the invalid-payload error, again with the state
unchanged. -/
theorem processAction_error_paths (st : AgentState) (req : ActionRequest) :
    (getKV registeredHandlers req.action = none →
      processAction registeredHandlers st req =
        (st, { success := false,
               error := some ("Unknown action: " ++ req.action ++
                 ". Available actions: " ++ "say, store, play") })) ∧
    (∀ (h : Handler) (v : Option Payload → Bool),
      getKV registeredHandlers req.action = some h →
      h.validateFn = some v → v req.payload = false →
      processAction registeredHandlers st req =
        (st, invalidPayloadResponse req.action)) := by
  constructor
  · intro hnone
    simp only [processAction, hnone]
    have hnames : String.intercalate ", " (keysOf registeredHandlers) =
        "say, store, play" := rfl
    simp only [unknownActionResponse, hnames, String.append_assoc]
  · intro h v hget hval hfalse
    rw [processAction_some registeredHandlers st req h hget, hval]
    simp only [hfalse, Bool.false_eq_true, if_false]

/-- Witness for C3: the unknown action `dance`, and a `store` request with a
missing payload. -/
theorem processAction_error_paths_witness :
    processAction registeredHandlers {} { action := "dance" } =
      ({}, { success := false,
             error := some ("Unknown action: " ++ "dance" ++
               ". Available actions: " ++ "say, store, play") }) ∧
    processAction registeredHandlers {} { action := "store" } =
      ({}, invalidPayloadResponse "store") := by
  constructor
  · exact (processAction_error_paths {} { action := "dance" }).1 rfl
  · exact (processAction_error_paths {} { action := "store" }).2
      storeHandler _ rfl rfl rfl

/-- C7: store-then-play round trip.  After a successful `store` of
`(id, text)`, a `play` of `id` succeeds, its `data` carries the stored text,
and the text is spoken (appended to the `session.say` transcript); a `play`
for an id absent from the storage fails with an error and the list of stored
ids, leaving the state unchanged. -/
theorem store_play_round_trip (st : AgentState) (id text : String)
    (hid : id.length > 0) (htext : text.length > 0) :
    (processAction registeredHandlers st
        { action := "store",
          payload := some { id := some (.str id), text := some (.str text) } }).2.success
      = true ∧
    ((processAction registeredHandlers
        (processAction registeredHandlers st
          { action := "store",
            payload := some { id := some (.str id), text := some (.str text) } }).1
        { action := "play", payload := some { id := some (.str id) } }).2.success
      = true ∧
     (processAction registeredHandlers
        (processAction registeredHandlers st
          { action := "store",
            payload := some { id := some (.str id), text := some (.str text) } }).1
        { action := "play", payload := some { id := some (.str id) } }).2.data
      = some (.playData id text) ∧
     (processAction registeredHandlers
        (processAction registeredHandlers st
          { action := "store",
            payload := some { id := some (.str id), text := some (.str text) } }).1
        { action := "play", payload := some { id := some (.str id) } }).1.said
      = st.said ++ [text]) ∧
    (∀ st2 : AgentState, getKV st2.storage id = none →
      processAction registeredHandlers st2
          { action := "play", payload := some { id := some (.str id) } } =
        (st2, { success := false,
                error := some ("No text found with id: " ++ id),
                data := some (.playErrData id (keysOf st2.storage)) })) := by
  have h1 : isNonEmptyString (some (JVal.str id)) = true := by
    simp [isNonEmptyString, hid]
  have h2 : isNonEmptyString (some (JVal.str text)) = true := by
    simp [isNonEmptyString, htext]
  have hstore :
      processAction registeredHandlers st
        { action := "store",
          payload := some { id := some (.str id), text := some (.str text) } } =
      ({ st with storage := setKV st.storage id text },
       { success := true, message := some "Text stored successfully",
         data := some (.storeData id text.length (setKV st.storage id text).length) }) := by
    rw [processAction_some registeredHandlers st
      { action := "store",
        payload := some { id := some (.str id), text := some (.str text) } }
      storeHandler rfl]
    simp [storeHandler, asString, h1, h2]
  refine ⟨by rw [hstore], ?_, ?_⟩
  · rw [hstore]
    have hplay :
        processAction registeredHandlers
          { st with storage := setKV st.storage id text }
          { action := "play", payload := some { id := some (.str id) } } =
        ({ st with storage := setKV st.storage id text,
                   said := st.said ++ [text] },
         { success := true, message := some "Text played successfully",
           data := some (.playData id text) }) := by
      rw [processAction_some registeredHandlers
        { st with storage := setKV st.storage id text }
        { action := "play", payload := some { id := some (.str id) } }
        playHandler rfl]
      simp [playHandler, asString, h1, getKV_setKV_self st.storage id text]
    rw [hplay]
    exact ⟨rfl, rfl, rfl⟩
  · intro st2 hnone
    rw [processAction_some registeredHandlers st2
      { action := "play", payload := some { id := some (.str id) } }
      playHandler rfl]
    simp [playHandler, asString, h1, hnone]

/-- Witness for C7 with `id = "a"`, `text = "hi"`. -/
theorem store_play_round_trip_witness :
    (processAction registeredHandlers {}
        { action := "store",
          payload := some { id := some (.str "a"), text := some (.str "hi") } }).2.success
      = true ∧
    ((processAction registeredHandlers
        (processAction registeredHandlers {}
          { action := "store",
            payload := some { id := some (.str "a"), text := some (.str "hi") } }).1
        { action := "play", payload := some { id := some (.str "a") } }).2.success
      = true ∧
     (processAction registeredHandlers
        (processAction registeredHandlers {}
          { action := "store",
            payload := some { id := some (.str "a"), text := some (.str "hi") } }).1
        { action := "play", payload := some { id := some (.str "a") } }).2.data
      = some (.playData "a" "hi") ∧
     (processAction registeredHandlers
        (processAction registeredHandlers {}
          { action := "store",
            payload := some { id := some (.str "a"), text := some (.str "hi") } }).1
        { action := "play", payload := some { id := some (.str "a") } }).1.said
      = AgentState.said {} ++ ["hi"]) ∧
    (∀ st2 : AgentState, getKV st2.storage "a" = none →
      processAction registeredHandlers st2
          { action := "play", payload := some { id := some (.str "a") } } =
        (st2, { success := false,
                error := some ("No text found with id: " ++ "a"),
                data := some (.playErrData "a" (keysOf st2.storage)) })) :=
  store_play_round_trip {} "a" "hi" (by decide) (by decide)

/-- An empty result from `latestOf` means there were no documents. -/
theorem latestOf_eq_none (l : List StoryRecord) (h : latestOf l = none) :
    l = [] := by
  cases l with
  | nil => rfl
  | cons a rest =>
    exfalso
    rw [latestOf] at h
    cases hr : latestOf rest with
    | none =>
      rw [hr] at h
      exact Option.some_ne_none a h
    | some t =>
      rw [hr] at h
      have h' : (if t.createdAt > a.createdAt then some t else some a) = none := h
      by_cases hgt : t.createdAt > a.createdAt
      · rw [if_pos hgt] at h'; exact Option.some_ne_none t h'
      · rw [if_neg hgt] at h'; exact Option.some_ne_none a h'

/-- `latestOf` returns a member whose `createdAt` is maximal. -/
theorem latestOf_mem_max (l : List StoryRecord) (s : StoryRecord)
    (h : latestOf l = some s) :
    s ∈ l ∧ ∀ t ∈ l, t.createdAt ≤ s.createdAt := by
  induction l generalizing s with
  | nil => simp [latestOf] at h
  | cons a rest ih =>
    rw [latestOf] at h
    cases hr : latestOf rest with
    | none =>
      rw [hr] at h
      have hrest : rest = [] := latestOf_eq_none rest hr
      have ha : a = s := Option.some.inj h
      subst ha
      subst hrest
      exact ⟨List.mem_singleton_self a, by simp⟩
    | some t =>
      rw [hr] at h
      have h' : (if t.createdAt > a.createdAt then some t else some a) = some s := h
      obtain ⟨htmem, htmax⟩ := ih t hr
      by_cases hgt : t.createdAt > a.createdAt
      · rw [if_pos hgt, Option.some.injEq] at h'
        subst h'
        refine ⟨List.mem_cons_of_mem a htmem, fun x hx => ?_⟩
        rcases List.mem_cons.mp hx with hx | hx
        · subst hx; exact Nat.le_of_lt hgt
        · exact htmax x hx
      · rw [if_neg hgt, Option.some.injEq] at h'
        subst h'
        refine ⟨List.mem_cons_self a rest, fun x hx => ?_⟩
        rcases List.mem_cons.mp hx with hx | hx
        · subst hx; exact Nat.le_refl _
        · exact Nat.le_trans (htmax x hx) (Nat.le_of_not_lt hgt)

/-- C5: `POST /api/story/start` with mode `previous`: with no saved story the
response text is the first predefined story; with at least one saved story it
is the text of a story of that user with maximal `createdAt`. -/
theorem startStory_previous_mode (stories : List StoryRecord)
    (users : List UserRecord) (uid : String) (randIdx : Fin 2)
    (newId : String) (now : Nat) :
    (storiesForUser stories uid = [] →
      (startStoryRoute stories users uid .previous randIdx newId now).2.text =
        PREDEFINED_STORIES.head!) ∧
    (storiesForUser stories uid ≠ [] →
      ∃ s, s ∈ storiesForUser stories uid ∧
        (∀ t ∈ storiesForUser stories uid, t.createdAt ≤ s.createdAt) ∧
        (startStoryRoute stories users uid .previous randIdx newId now).2.text =
          s.text) := by
  have htext :
      (startStoryRoute stories users uid .previous randIdx newId now).2.text =
        match latestOf (storiesForUser stories uid) with
        | some previousStory => previousStory.text
        | none => PREDEFINED_STORIES.head! := by
    simp only [startStoryRoute, chooseStoryText, getLatestStoryForUser,
      storiesForUser]
  constructor
  · intro hempty
    rw [htext, hempty]
    rfl
  · intro hne
    cases hl : latestOf (storiesForUser stories uid) with
    | none => exact absurd (latestOf_eq_none _ hl) hne
    | some s =>
      obtain ⟨hmem, hmax⟩ := latestOf_mem_max _ s hl
      exact ⟨s, hmem, hmax, by rw [htext, hl]⟩

/-- Witness for C5: a user with two stories gets the later one; a user with
none gets the first predefined story. -/
theorem startStory_previous_mode_witness :
    ((storiesForUser
        [{ storyId := "s1", clerkUserId := "u", mode := .generated,
           text := "old", paragraphs := ["old"], createdAt := 1 },
         { storyId := "s2", clerkUserId := "u", mode := .generated,
           text := "new", paragraphs := ["new"], createdAt := 5 }] "w" = [] →
      (startStoryRoute
        [{ storyId := "s1", clerkUserId := "u", mode := .generated,
           text := "old", paragraphs := ["old"], createdAt := 1 },
         { storyId := "s2", clerkUserId := "u", mode := .generated,
           text := "new", paragraphs := ["new"], createdAt := 5 }]
        [] "w" .previous ⟨0, by omega⟩ "s3" 9).2.text =
        PREDEFINED_STORIES.head!) ∧
     (startStoryRoute
        [{ storyId := "s1", clerkUserId := "u", mode := .generated,
           text := "old", paragraphs := ["old"], createdAt := 1 },
         { storyId := "s2", clerkUserId := "u", mode := .generated,
           text := "new", paragraphs := ["new"], createdAt := 5 }]
        [] "w" .previous ⟨0, by omega⟩ "s3" 9).2.text =
        PREDEFINED_STORIES.head!) ∧
    (∃ s, s ∈ storiesForUser
        [{ storyId := "s1", clerkUserId := "u", mode := .generated,
           text := "old", paragraphs := ["old"], createdAt := 1 },
         { storyId := "s2", clerkUserId := "u", mode := .generated,
           text := "new", paragraphs := ["new"], createdAt := 5 }] "u" ∧
      (∀ t ∈ storiesForUser
          [{ storyId := "s1", clerkUserId := "u", mode := .generated,
             text := "old", paragraphs := ["old"], createdAt := 1 },
           { storyId := "s2", clerkUserId := "u", mode := .generated,
             text := "new", paragraphs := ["new"], createdAt := 5 }] "u",
        t.createdAt ≤ s.createdAt) ∧
      (startStoryRoute
        [{ storyId := "s1", clerkUserId := "u", mode := .generated,
           text := "old", paragraphs := ["old"], createdAt := 1 },
         { storyId := "s2", clerkUserId := "u", mode := .generated,
           text := "new", paragraphs := ["new"], createdAt := 5 }]
        [] "u" .previous ⟨0, by omega⟩ "s3" 9).2.text = s.text) := by
  refine ⟨?_, ?_⟩
  · constructor
    · exact fun _ => (startStory_previous_mode _ [] "w" ⟨0, by omega⟩ "s3" 9).1 (by rfl)
    · exact (startStory_previous_mode _ [] "w" ⟨0, by omega⟩ "s3" 9).1 (by rfl)
  · exact (startStory_previous_mode _ [] "u" ⟨0, by omega⟩ "s3" 9).2
      (by decide)

/-- C4: `createStorySynopsis` returns the parsed JSON object exactly when one
can be extracted and parsed from the (fence-stripped) LLM response, and the
hardcoded fallback otherwise; the fallback's title, protagonist, sidekick and
page count are as fixed by `createFallbackSynopsis` (`quick` gives 3 pages,
`medium` 5, `bedtime` 8). -/
theorem createStorySynopsis_fallback (parse : String → Option StorySynopsis)
    (content : String) (context : StoryContext) (childRequest : String) :
    (extractJsonObject (stripFences content) = none →
      createStorySynopsis parse content context childRequest =
        createFallbackSynopsis context childRequest) ∧
    (∀ js, extractJsonObject (stripFences content) = some js →
      parse js = none →
      createStorySynopsis parse content context childRequest =
        createFallbackSynopsis context childRequest) ∧
    (∀ js syn, extractJsonObject (stripFences content) = some js →
      parse js = some syn →
      createStorySynopsis parse content context childRequest = syn) ∧
    (createFallbackSynopsis context childRequest).title =
      context.childProfile.name ++ "\x27s Magical Adventure" ∧
    (createFallbackSynopsis context childRequest).mainCharacters.map
        (fun ch => (ch.name, ch.role)) =
      [(context.childProfile.name, "protagonist"),
       ("Friendly Guide", "sidekick")] ∧
    (createFallbackSynopsis context childRequest).estimatedPages =
      (match context.childProfile.preferredStoryLength with
       | .quick => 3
       | .medium => 5
       | .bedtime => 8) := by
  refine ⟨?_, ?_, ?_, rfl, rfl, ?_⟩
  · intro hnone
    simp [createStorySynopsis, hnone]
  · intro js hjs hpn
    simp [createStorySynopsis, hjs, hpn]
  · intro js syn hjs hps
    simp [createStorySynopsis, hjs, hps]
  · cases hc : context.childProfile.preferredStoryLength <;>
      simp [createFallbackSynopsis, getStoryLengthConfig, hc]

/-- Witness for C4: a response with no JSON object falls back; a response
that is a parseable JSON object is returned as parsed. -/
theorem createStorySynopsis_fallback_witness :
    createStorySynopsis (fun _ => none) "once upon a time"
        { parentPersona :=
            { name := "P", storytellingStyle := "calm", voiceTone := "soft",
              favoriteThemes := ["space"], values := ["kindness"] },
          childProfile :=
            { name := "Dudu", age := 5, interests := ["stars"],
              attentionSpan := "short", preferredStoryLength := .quick },
          rawMarkdown := "md" } "a story" =
      createFallbackSynopsis
        { parentPersona :=
            { name := "P", storytellingStyle := "calm", voiceTone := "soft",
              favoriteThemes := ["space"], values := ["kindness"] },
          childProfile :=
            { name := "Dudu", age := 5, interests := ["stars"],
              attentionSpan := "short", preferredStoryLength := .quick },
          rawMarkdown := "md" } "a story" ∧
    createStorySynopsis
        (fun js => if js = "\x7b\x7d" then
          some { title := "T", premise := "p", mainCharacters := [],
                 setting := "s", theme := "t", moralLesson := "m",
                 estimatedPages := 1, outline := [] }
          else none)
        "\x7b\x7d"
        { parentPersona :=
            { name := "P", storytellingStyle := "calm", voiceTone := "soft",
              favoriteThemes := ["space"], values := ["kindness"] },
          childProfile :=
            { name := "Dudu", age := 5, interests := ["stars"],
              attentionSpan := "short", preferredStoryLength := .quick },
          rawMarkdown := "md" } "a story" =
      { title := "T", premise := "p", mainCharacters := [], setting := "s",
        theme := "t", moralLesson := "m", estimatedPages := 1,
        outline := [] } := by
  constructor
  · exact (createStorySynopsis_fallback (fun _ => none) "once upon a time"
      { parentPersona :=
          { name := "P", storytellingStyle := "calm", voiceTone := "soft",
            favoriteThemes := ["space"], values := ["kindness"] },
        childProfile :=
          { name := "Dudu", age := 5, interests := ["stars"],
            attentionSpan := "short", preferredStoryLength := .quick },
        rawMarkdown := "md" } "a story").1 (by decide)
  · exact (createStorySynopsis_fallback _ "\x7b\x7d"
      { parentPersona :=
          { name := "P", storytellingStyle := "calm", voiceTone := "soft",
            favoriteThemes := ["space"], values := ["kindness"] },
        childProfile :=
          { name := "Dudu", age := 5, interests := ["stars"],
            attentionSpan := "short", preferredStoryLength := .quick },
        rawMarkdown := "md" } "a story").2.2.1 "\x7b\x7d" _ (by decide) rfl

/-- A list returned whole by `dropWhile` has a head failing the predicate. -/
theorem dropWhile_self_head {α : Type} (p : α → Bool) (c : α) (cs : List α)
    (h : List.dropWhile p (c :: cs) = c :: cs) : p c = false := by
  by_cases hp : p c
  · exfalso
    rw [List.dropWhile_cons_of_pos hp] at h
    have hle : (List.dropWhile p cs).length ≤ cs.length :=
      (List.dropWhile_suffix _).length_le
    rw [h] at hle
    simp at hle
  · exact Bool.of_not_eq_true hp

/-- `dropWhile` is idempotent. -/
theorem dropWhile_idem {α : Type} (p : α → Bool) (l : List α) :
    (l.dropWhile p).dropWhile p = l.dropWhile p := by
  cases h : l.dropWhile p with
  | nil => rfl
  | cons c cs =>
    have hhead := List.head?_dropWhile_not p l
    rw [h] at hhead
    simp only [List.head?_cons] at hhead
    exact List.dropWhile_cons_of_neg (by simp [hhead])

/-- An element failing the predicate survives `dropWhile`. -/
theorem mem_dropWhile_of_mem {α : Type} (p : α → Bool) (l : List α) (x : α)
    (hx : x ∈ l) (hp : p x = false) : x ∈ l.dropWhile p := by
  induction l with
  | nil => simp at hx
  | cons c cs ih =>
    by_cases hc : p c
    · rw [List.dropWhile_cons_of_pos hc]
      rcases List.mem_cons.mp hx with hx | hx
      · subst hx; rw [hc] at hp; exact absurd hp (by simp)
      · exact ih hx
    · rw [List.dropWhile_cons_of_neg hc]
      exact hx

/-- `trimRightChars` yields a prefix: the original is it plus a tail. -/
theorem trimRightChars_append (cs : List Char) :
    ∃ t, cs = trimRightChars cs ++ t := by
  obtain ⟨u, hu⟩ := List.dropWhile_suffix (l := cs.reverse) isJsWs
  refine ⟨u.reverse, ?_⟩
  have : cs.reverse.reverse = (u ++ cs.reverse.dropWhile isJsWs).reverse := by
    rw [hu]
  simpa [trimRightChars] using this

/-- A left-trimmed list stays left-trimmed after `trimRightChars`. -/
theorem trimLeft_trimRight (cs : List Char)
    (h : trimLeftChars cs = cs) : trimLeftChars (trimRightChars cs) = trimRightChars cs := by
  obtain ⟨t, ht⟩ := trimRightChars_append cs
  cases hr : trimRightChars cs with
  | nil => rfl
  | cons c l =>
    rw [hr] at ht
    have hhead : isJsWs c = false := by
      apply dropWhile_self_head isJsWs c (l ++ t)
      have : List.dropWhile isJsWs (c :: (l ++ t)) = c :: (l ++ t) := by
        rw [← List.cons_append, ← ht]
        exact h
      exact this
    exact List.dropWhile_cons_of_neg (by simp [hhead])

/-- `trimRightChars` is idempotent. -/
theorem trimRight_idem (cs : List Char) :
    trimRightChars (trimRightChars cs) = trimRightChars cs := by
  simp only [trimRightChars, List.reverse_reverse]
  rw [dropWhile_idem]

/-- `String.prototype.trim` is idempotent. -/
theorem jsTrim_idem (s : String) : jsTrim (jsTrim s) = jsTrim s := by
  show String.mk (trimRightChars (trimLeftChars
      (trimRightChars (trimLeftChars s.data)))) =
    String.mk (trimRightChars (trimLeftChars s.data))
  have h0 : trimLeftChars (trimLeftChars s.data) = trimLeftChars s.data :=
    dropWhile_idem isJsWs s.data
  rw [trimLeft_trimRight (trimLeftChars s.data) h0, trimRight_idem]

/-- A string holding a non-white-space character trims to a nonempty string. -/
theorem jsTrim_length_pos (s : String) (c : Char) (hc : c ∈ s.data)
    (hw : isJsWs c = false) : (jsTrim s).length > 0 := by
  have h1 : c ∈ trimLeftChars s.data := mem_dropWhile_of_mem isJsWs s.data c hc hw
  have h2 : c ∈ trimRightChars (trimLeftChars s.data) := by
    simp only [trimRightChars, List.mem_reverse]
    exact mem_dropWhile_of_mem isJsWs (trimLeftChars s.data).reverse c
      (List.mem_reverse.mpr h1) hw
  have h3 : (trimRightChars (trimLeftChars s.data)).length > 0 :=
    List.length_pos.mpr (List.ne_nil_of_mem h2)
  exact h3

/-- Every match produced by the sentence scan contains a terminator. -/
theorem sentScan_term (cs : List Char) :
    ∀ (cur : List Char) (seen : Bool),
      (seen = true → ∃ c ∈ cur, isTerm c = true) →
      ∀ l ∈ sentScan cs cur seen, ∃ c ∈ l, isTerm c = true := by
  induction cs with
  | nil =>
    intro cur seen hinv l hl
    cases seen with
    | false => simp [sentScan] at hl
    | true =>
      simp only [sentScan, if_true] at hl
      rw [List.mem_singleton.mp hl]
      obtain ⟨c, hc, ht⟩ := hinv rfl
      exact ⟨c, List.mem_reverse.mpr hc, ht⟩
  | cons c rest ih =>
    intro cur seen hinv l hl
    rw [sentScan] at hl
    by_cases hterm : isTerm c
    · rw [if_pos hterm] at hl
      by_cases hemp : cur.isEmpty
      · rw [if_pos hemp] at hl
        exact ih [] false (fun h => absurd h (by simp)) l hl
      · rw [if_neg hemp] at hl
        exact ih (c :: cur) true
          (fun _ => ⟨c, List.mem_cons_self _ _, hterm⟩) l hl
    · rw [if_neg hterm] at hl
      cases seen with
      | true =>
        simp only [if_true] at hl
        rcases List.mem_cons.mp hl with hl | hl
        · rw [hl]
          obtain ⟨d, hd, ht⟩ := hinv rfl
          exact ⟨d, List.mem_reverse.mpr hd, ht⟩
        · exact ih [c] false (fun h => absurd h (by simp)) l hl
      | false =>
        simp only [Bool.false_eq_true, if_false] at hl
        exact ih (c :: cur) false (fun h => absurd h (by simp)) l hl

/-- Sentence terminators are not white space. -/
theorem isTerm_not_ws (c : Char) (h : isTerm c = true) : isJsWs c = false := by
  simp only [isTerm, Bool.or_eq_true, decide_eq_true_eq] at h
  rcases h with (h | h) | h <;> subst h <;> decide

/-- Paragraphs produced by `splitParagraphs` are nonempty and trimmed. -/
theorem mem_splitParagraphs (s p : String) (h : p ∈ splitParagraphs s) :
    p.length > 0 ∧ jsTrim p = p := by
  simp only [splitParagraphs, List.mem_filter, List.mem_map,
    decide_eq_true_eq] at h
  obtain ⟨⟨q, _, hq⟩, hpos⟩ := h
  subst hq
  exact ⟨hpos, jsTrim_idem q⟩

/-- Every sentence of a nonempty trimmed paragraph trims to a nonempty
string. -/
theorem sentencesOf_trim_pos (p : String) (hp : p.length > 0)
    (htr : jsTrim p = p) :
    ∀ s ∈ sentencesOf p, (jsTrim s).length > 0 := by
  intro s hs
  rw [sentencesOf] at hs
  cases hscan : sentScan p.data [] false with
  | nil =>
    rw [hscan] at hs
    rw [List.mem_singleton.mp hs, htr]
    exact hp
  | cons l ls =>
    rw [hscan] at hs
    obtain ⟨cl, hcl, hmk⟩ := List.mem_map.mp hs
    rw [← hscan] at hcl
    obtain ⟨c, hc, hct⟩ :=
      sentScan_term p.data [] false (fun h => absurd h (by simp)) cl hcl
    subst hmk
    exact jsTrim_length_pos (String.mk cl) c hc (isTerm_not_ws c hct)

/-- The well-formedness invariant of the chunk accumulator. -/
def ChunkInv (cs : List AudioChunk) : Prop :=
  cs.map AudioChunk.index = List.range cs.length ∧
  ∀ c ∈ cs, c.text.length > 0 ∧ jsTrim c.text = c.text ∧
    c.duration = durationMs c.text.length

/-- `pushChunk` preserves the invariant for a nonempty trimmed text. -/
theorem pushChunk_inv (cs : List AudioChunk) (t : String) (h : ChunkInv cs)
    (ht : t.length > 0) (htr : jsTrim t = t) : ChunkInv (pushChunk cs t) := by
  obtain ⟨hidx, hmem⟩ := h
  constructor
  · simp only [pushChunk, List.map_append, List.length_append, hidx,
      List.map_cons, List.map_nil, List.length_cons, List.length_nil]
    rw [List.range_succ]
  · intro c hc
    rcases List.mem_append.mp hc with hc | hc
    · exact hmem c hc
    · rw [List.mem_singleton.mp hc]
      exact ⟨ht, htr, rfl⟩

set_option maxRecDepth 20000 in
/-- C10, counterexample: the chunk durations are not the exact
`ceil((len/5)*(60/150)*1000)`.  For the story text `"Bye."` (one chunk of
length 4) the program computes the duration in binary64 doubles and gets 321,
while the exact ceiling of `(4/5)*(60/150)*1000 = 320` is 320. -/
theorem splitIntoChunks_duration_cex :
    (splitIntoChunks "Bye.").map AudioChunk.duration = [(321 : Int)] ∧
    Int.ceil ((("Bye.".length : ℚ) / 5) * ((60 : ℚ) / 150) * 1000) = 320 := by
  constructor
  · have hlist : splitIntoChunks "Bye." =
        [AudioChunk.mk 0 "Bye." (durationMs "Bye.".length)] := rfl
    rw [hlist]
    simp only [List.map_cons, List.map_nil]
    have hdur : durationMs "Bye.".length = 321 := by decide
    rw [hdur]
  · have hlen : "Bye.".length = 4 := rfl
    rw [hlen]
    have hq : ((4 : Nat) : ℚ) / 5 * ((60 : ℚ) / 150) * 1000 = ((320 : ℤ) : ℚ) := by
      norm_num
    rw [hq, Int.ceil_intCast]

/-- C10 (amended): `splitIntoChunks` produces chunks indexed
`0, 1, ..., n-1` in order, with nonempty trimmed texts and
`duration = Math.ceil((len/5)*(60/150)*1000)` evaluated in IEEE-754 binary64
arithmetic as the program does (`durationMs`; this is `80*len` or `80*len+1`
depending on double rounding, not always the exact ceiling `80*len`); the
`audio-chunks` response reports `totalChunks` equal to the number of
chunks. -/
theorem splitIntoChunks_wellformed (text : String) (users : List UserRecord)
    (uid : String) (voiceIdParam : Option String) :
    ((splitIntoChunks text).map AudioChunk.index =
       List.range (splitIntoChunks text).length ∧
     ∀ c ∈ splitIntoChunks text, c.text.length > 0 ∧
       jsTrim c.text = c.text ∧ c.duration = durationMs c.text.length) ∧
    (audioChunksRoute users uid text voiceIdParam).totalChunks =
      (splitIntoChunks text).length := by
  refine ⟨?_, rfl⟩
  have hinv : ChunkInv (splitIntoChunks text) := by
    rw [splitIntoChunks]
    refine List.foldlRecOn (splitParagraphs text) _ [] ⟨rfl, by simp⟩ ?_
    intro acc hacc p hp
    obtain ⟨hppos, hptr⟩ := mem_splitParagraphs text p hp
    by_cases hlong : p.length > 200
    · simp only [hlong, if_true]
      refine List.foldlRecOn (sentencesOf p) _ acc hacc ?_
      intro acc2 hacc2 s hs
      exact pushChunk_inv acc2 (jsTrim s) hacc2
        (sentencesOf_trim_pos p hppos hptr s hs) (jsTrim_idem s)
    · simp only [hlong, if_false]
      exact pushChunk_inv acc p hacc hppos hptr
  exact hinv

set_option maxRecDepth 20000 in
/-- Witness for C10 on a concrete story text with two chunks. -/
theorem splitIntoChunks_wellformed_witness :
    ((splitIntoChunks "Hello world.\n\nBye.").map AudioChunk.index =
       List.range (splitIntoChunks "Hello world.\n\nBye.").length ∧
     AudioChunk.mk 0 "Hello world." (durationMs "Hello world.".length) ∈
       splitIntoChunks "Hello world.\n\nBye." ∧
     ("Hello world.".length > 0 ∧ jsTrim "Hello world." = "Hello world." ∧
      durationMs "Hello world.".length =
        durationMs ("Hello world.".length))) ∧
    (audioChunksRoute [] "u" "Hello world.\n\nBye." none).totalChunks =
      (splitIntoChunks "Hello world.\n\nBye.").length := by
  have h := splitIntoChunks_wellformed "Hello world.\n\nBye." [] "u" none
  have hlist : splitIntoChunks "Hello world.\n\nBye." =
      [AudioChunk.mk 0 "Hello world." (durationMs "Hello world.".length),
       AudioChunk.mk 1 "Bye." (durationMs "Bye.".length)] := rfl
  have hmem : AudioChunk.mk 0 "Hello world." (durationMs "Hello world.".length) ∈
      splitIntoChunks "Hello world.\n\nBye." := by
    rw [hlist]
    exact List.mem_cons_self _ _
  exact ⟨⟨h.1.1, hmem, h.1.2 _ hmem⟩, h.2⟩

/-- C1, counterexample: the manager registered by
`RoomEventHandler.registerHandlers` has no handler for `change_voice`, and a
well-formed `change_voice` request gets the unknown-action error. -/
theorem changeVoice_unregistered_cex :
    hasHandler registeredHandlers "change_voice" = false ∧
    (processAction registeredHandlers {}
        { action := "change_voice",
          payload := some { voice_id := some (.str "YEPxsTk32dk1sVTotPBJ") } }).2 =
      { success := false,
        error := some
          "Unknown action: change_voice. Available actions: say, store, play" } := by
  exact ⟨rfl, by decide⟩

end StoryTime
